import Mathlib

/-!
Shallow embedding of the kernel-lifecycle and resource-allocation core of the
compute-node agent (`src/sorna/agent/server.py`) and of the service-port
declaration parser (`src/src/ai/backend/agent/utils.py`).

The agent keeps a registry of kernel records, a NUMA-aware CPU allocator and
two auxiliary signal tables (`restarting_kernels`, `blocking_cleans`).  The
lifecycle operations (`_create_kernel`, `_destroy_kernel`, `restart_kernel`,
`clean_kernel`, `_execute_code`) are embedded as explicit state-passing
functions; the container engine and the in-container runner are external
collaborators, so their responses enter as explicit outcome parameters.
Upstream event dispatches and scheduled background tasks are collected in a
trace list.
-/

namespace SornaAgent

/-- Abstract per-container statistics sample (the result of `collect_stats`). -/
abbrev Stat := Nat

/-- Snapshot of a working directory as produced by `scandir` (file names with
their metadata fingerprint). -/
abbrev FileStats := List (String × Nat)

/-- The per-kernel REPL relay (`KernelRunner(kernel_id, ip, repl_in_port,
repl_out_port, exec_timeout, features)`, constructed at server.py lines
384-390). -/
structure KernelRunner where
  kernel_id : String
  container_ip : String
  repl_in_port : Nat
  repl_out_port : Nat
  exec_timeout : Nat
  features : List String
deriving DecidableEq, Repr

/-- One entry of `self.container_registry` (the dict inserted at server.py
lines 309-325 plus the dynamically managed keys `runner`, `runner_task`,
`initial_file_stats`, `last_stat`).  Optional fields model dict keys that may
be absent; `runner_task : Bool` models presence of the task handle. -/
structure KernelRecord where
  lang : String
  version : Nat
  container_id : String
  container_ip : String
  repl_in_port : Nat
  repl_out_port : Nat
  stdin_port : Nat
  stdout_port : Nat
  cpu_shares : Nat
  numa_node : Nat
  core_set : List Nat
  mem_limit : String
  exec_timeout : Nat
  num_queries : Nat
  last_used : Nat
  runner : Option KernelRunner := none
  runner_task : Bool := false
  initial_file_stats : Option FileStats := none
  last_stat : Option Stat := none
deriving DecidableEq, Repr

/-- Insertion sort used to pick the numerically lowest free cores. -/
def insertSorted (x : Nat) : List Nat → List Nat
  | [] => [x]
  | y :: ys => if x ≤ y then x :: y :: ys else y :: insertSorted x ys

def sortNat (l : List Nat) : List Nat := l.foldr insertSorted []

/-- Modelled from the spec: the CPU allocator `CPUAllocMap` lives in
`sorna.agent.resources`, which is not under `src/`.  Per spec section 4.1 it
is initialized from the NUMA topology (node index to list of cores), `alloc`
chooses the node with the most currently free cores and takes the numerically
lowest free cores there (the request clamped to capacity), and `free` simply
returns cores to the pool. -/
structure CPUAllocMap where
  topology : List (List Nat)
  used : List Nat
deriving DecidableEq, Repr

def CPUAllocMap.num_cores (m : CPUAllocMap) : Nat :=
  (m.topology.map List.length).sum

def CPUAllocMap.freeCoresOf (m : CPUAllocMap) (node : List Nat) : List Nat :=
  node.filter (fun c => !(m.used.contains c))

/-- Index of the first maximal element of a list of counts. -/
def argmaxIdx (l : List Nat) : Nat :=
  (l.enum.foldl (fun best p => if p.2 > best.2 then p else best) (0, 0)).1

/-- Modelled from the spec: `alloc(n)` picks the NUMA node with the most free
cores and grants the lowest `n` free cores of that node. -/
def CPUAllocMap.alloc (m : CPUAllocMap) (n : Nat) : (Nat × List Nat) × CPUAllocMap :=
  let counts := m.topology.map (fun node => (m.freeCoresOf node).length)
  let node_idx := argmaxIdx counts
  let node := m.topology.getD node_idx []
  let core_set := (sortNat (m.freeCoresOf node)).take n
  ((node_idx, core_set), { m with used := m.used ++ core_set })

/-- Modelled from the spec: `free` returns a core set to the pool; freeing an
unknown core is tolerated. -/
def CPUAllocMap.free (m : CPUAllocMap) (cs : List Nat) : CPUAllocMap :=
  { m with used := m.used.filter (fun c => !(cs.contains c)) }

/-- Modelled from the spec: `libnuma.node_of_cpu` (from `sorna.agent.resources`,
not under `src/`): the NUMA node a core belongs to. -/
def nodeOfCpu (topology : List (List Nat)) (c : Nat) : Nat :=
  topology.findIdx (fun node => node.contains c)

/-- Events observable from a lifecycle operation: upstream dispatches,
background tasks scheduled with `asyncio.ensure_future`, engine container
creation, relay construction and closing, and artifact upload. -/
inductive Ev
  | dispatch (name : String) (kernel_id : String)
  | scheduleClean (kernel_id : String)
  | scheduleDestroy (kernel_id : String) (reason : String)
  | engineCreateContainer (container_id : String)
  | runnerStarted (kernel_id : String)
  | runnerClosed (kernel_id : String)
  | upload (entry_id : String)
deriving DecidableEq, Repr

/-- Python exception kinds that can escape the embedded operations. -/
inductive AgentErr
  | keyError
  | typeError
  | assertionError
  | attributeError
  | timeoutError
  | dockerError
  | osError
  | runtimeError
deriving DecidableEq, Repr

/-- The agent's mutable state: the kernel registry, the CPU allocator, the two
module-level signal tables (a signal is `some b` when the table has an entry,
with `b` true once `set()` was called), the scratch directories under
`volume_root`, and the containers known to the engine. -/
structure AgentState where
  container_registry : String → Option KernelRecord
  container_cpu_map : CPUAllocMap
  restarting_kernels : String → Option Bool
  blocking_cleans : String → Option Bool
  workdirs : String → Bool
  containers : String → Bool

theorem AgentState.ext {a b : AgentState}
    (h1 : a.container_registry = b.container_registry)
    (h2 : a.container_cpu_map = b.container_cpu_map)
    (h3 : a.restarting_kernels = b.restarting_kernels)
    (h4 : a.blocking_cleans = b.blocking_cleans)
    (h5 : a.workdirs = b.workdirs)
    (h6 : a.containers = b.containers) : a = b := by
  cases a; cases b; simp_all

def updateKey {α : Type} (f : String → Option α) (k : String) (v : α) :
    String → Option α :=
  fun x => if x = k then some v else f x

def eraseKey {α : Type} (f : String → Option α) (k : String) :
    String → Option α :=
  fun x => if x = k then none else f x

/-- Models `Event.set()` on the signal stored under `k`. -/
def setSignal (f : String → Option Bool) (k : String) : String → Option Bool :=
  fun x => if x = k then some true else f x

@[simp] theorem updateKey_same {α : Type} (f : String → Option α) (k : String) (v : α) :
    updateKey f k v k = some v := by simp [updateKey]

@[simp] theorem eraseKey_same {α : Type} (f : String → Option α) (k : String) :
    eraseKey f k k = none := by simp [eraseKey]

@[simp] theorem setSignal_same (f : String → Option Bool) (k : String) :
    setSignal f k k = some true := by simp [setSignal]

theorem updateKey_other {α : Type} (f : String → Option α) (k : String) (v : α)
    (x : String) (h : x ≠ k) : updateKey f k v x = f x := by simp [updateKey, h]

theorem eraseKey_other {α : Type} (f : String → Option α) (k : String)
    (x : String) (h : x ≠ k) : eraseKey f k x = f x := by simp [eraseKey, h]

theorem setSignal_other (f : String → Option Bool) (k : String)
    (x : String) (h : x ≠ k) : setSignal f k x = f x := by simp [setSignal, h]

/-- Outcome of the engine `container.delete()` call inside `clean_kernel`. -/
inductive DeleteOutcome
  | ok
  | err400InProgress
  | err404
  | errOther
deriving DecidableEq, Repr

/-- Embeds `clean_kernel` (server.py lines 547-583).  Deletes the container
(tolerating 400 already-in-progress, 404 and other engine errors), then: for a
restarting kernel only sets its signal; otherwise removes the workdir
(tolerating absence), frees the core set, removes the registry record,
dispatches `kernel_terminated` (a missing record short-circuits all three via
`KeyError`), and finally sets the blocking-clean signal when present. -/
def cleanKernel (delOutcome : DeleteOutcome) (s : AgentState) (kernel_id : String) :
    AgentState × List Ev :=
  let s1 :=
    match s.container_registry kernel_id with
    | some r =>
      match delOutcome with
      | .ok => { s with containers := fun c => if c = r.container_id then false else s.containers c }
      | _ => s
    | none => s
  match s1.restarting_kernels kernel_id with
  | some _ =>
    ({ s1 with restarting_kernels := setSignal s1.restarting_kernels kernel_id }, [])
  | none =>
    let s2 := { s1 with workdirs := fun k => if k = kernel_id then false else s1.workdirs k }
    let step3 :=
      match s2.container_registry kernel_id with
      | none => (s2, ([] : List Ev))
      | some r =>
        ({ s2 with
            container_cpu_map := s2.container_cpu_map.free r.core_set,
            container_registry := eraseKey s2.container_registry kernel_id },
         [Ev.dispatch "kernel_terminated" kernel_id])
    let s4 :=
      match step3.1.blocking_cleans kernel_id with
      | some _ => { step3.1 with blocking_cleans := setSignal step3.1.blocking_cleans kernel_id }
      | none => step3.1
    (s4, step3.2)

/-- Outcome of the engine `container.kill()` call inside `_destroy_kernel`. -/
inductive KillOutcome
  | ok
  | err500NotRunning
  | err404
  | errOther
deriving DecidableEq, Repr

/-- Engine responses consumed by `_destroy_kernel`: the stats sample (`none`
models `collect_stats` raising, swallowed by the bare `except`) and the kill
outcome. -/
structure DestroyEngine where
  stats : Option Stat
  kill : KillOutcome
deriving DecidableEq, Repr

/-- Embeds `_destroy_kernel` (server.py lines 332-362).  A missing record returns
silently.  A set `runner_task` is cancelled and awaited: the cancelled
execute task closes the relay and drops the `runner` and `runner_task` fields
(lines 399-407).  Then stats are captured into `last_stat` and the container
is killed; engine error 500 not-running is tolerated, engine error 404 frees
the core set and deletes the record, other errors are logged.  No exception
escapes. -/
def destroyKernel (eng : DestroyEngine) (s : AgentState) (kernel_id : String)
    (_reason : String) : AgentState × List Ev :=
  match s.container_registry kernel_id with
  | none => (s, [])
  | some r =>
    let r1 := if r.runner_task then { r with runner := none, runner_task := false } else r
    let s1 :=
      if r.runner_task then
        { s with container_registry := updateKey s.container_registry kernel_id r1 }
      else s
    let t1 := if r.runner_task then [Ev.runnerClosed kernel_id] else ([] : List Ev)
    match eng.stats with
    | none => (s1, t1)
    | some st =>
      let r2 := { r1 with last_stat := some st }
      let s2 := { s1 with container_registry := updateKey s1.container_registry kernel_id r2 }
      match eng.kill with
      | .ok => (s2, t1)
      | .err500NotRunning => (s2, t1)
      | .err404 =>
        ({ s2 with
            container_cpu_map := s2.container_cpu_map.free r2.core_set,
            container_registry := eraseKey s2.container_registry kernel_id }, t1)
      | .errOther => (s2, t1)

/-- Image labels read by `_create_kernel` (server.py lines 230-236, 256, 272). -/
structure ImageInfo where
  version : Nat
  maxmem : String
  timeout : Nat
  maxcores : Nat
  envs_corecount : List String
  nvidia : Bool
deriving DecidableEq, Repr

/-- Engine responses consumed by `_create_kernel`: `none`/`false` at a field
models the corresponding engine call raising. -/
structure CreateEngine where
  image : Option ImageInfo
  volumesOk : Bool
  nvidiaOk : Bool
  created : Option String
  startOk : Bool
  ports : Option (Nat × Nat × Nat × Nat)
deriving DecidableEq, Repr

/-- The agent configuration options used by the embedded operations, plus the
current monotonic clock reading. -/
structure AgentConfig where
  exec_timeout : Nat
  now : Nat
deriving DecidableEq, Repr

/-- The tail of `_create_kernel` after the core set is fixed (server.py lines
260-330): resolve extra volumes, optionally prepare nvidia bindings, create
and start the container, read the four published host ports And insert the
fresh `KernelRecord` into the registry.  Note that no failure branch here
returns the core set to the allocator: an engine error simply propagates. -/
def createKernelRest (cfg : AgentConfig) (eng : CreateEngine) (kernel_id lang : String)
    (info : ImageInfo) (numa_node : Nat) (core_set : List Nat)
    (s : AgentState) (tr : List Ev) : AgentState × List Ev × Except AgentErr String :=
  if !eng.volumesOk then (s, tr, .error .dockerError)
  else if info.nvidia && !eng.nvidiaOk then (s, tr, .error .dockerError)
  else
    match eng.created with
    | none => (s, tr, .error .dockerError)
    | some cid =>
      let s1 := { s with containers := fun c => if c = cid then true else s.containers c }
      let tr1 := tr ++ [Ev.engineCreateContainer cid]
      if !eng.startOk then (s1, tr1, .error .dockerError)
      else
        match eng.ports with
        | none => (s1, tr1, .error .dockerError)
        | some (p0, p1, p2, p3) =>
          let record : KernelRecord :=
            { lang := lang
              version := info.version
              container_id := cid
              container_ip := "127.0.0.1"
              repl_in_port := p0
              repl_out_port := p1
              stdin_port := p2
              stdout_port := p3
              cpu_shares := 1024
              numa_node := numa_node
              core_set := core_set
              mem_limit := info.maxmem
              exec_timeout := min info.timeout cfg.exec_timeout
              num_queries := 0
              last_used := cfg.now }
          ({ s1 with container_registry := updateKey s1.container_registry kernel_id record },
           tr1, .ok kernel_id)

/-- Embeds `_create_kernel` (server.py lines 221-330).  With no kernel id a fresh one
(`genId`) is taken and `kernel_creating` dispatched (the id is asserted fresh);
with a given id `kernel_restarting` is dispatched.  The image is inspected.
For a kernel in `restarting_kernels` the recorded core set is reused and the
signal is awaited with a 10-second deadline: the signal value `true` means it
was set in time, `false` models `asyncio.TimeoutError`, upon which the
restarting entry is removed, a `clean_kernel` task is scheduled and the
timeout propagates.  Otherwise the workdir is created (`os.makedirs` raises if
it already exists) and cores are allocated from the CPU map. -/
def createKernel (cfg : AgentConfig) (eng : CreateEngine) (genId : String)
    (lang : String) (kernelId? : Option String) (s : AgentState) :
    AgentState × List Ev × Except AgentErr String :=
  let idStep : Except AgentErr (String × Ev) :=
    match kernelId? with
    | none =>
      if (s.container_registry genId).isSome then .error .assertionError
      else .ok (genId, Ev.dispatch "kernel_creating" genId)
    | some kid => .ok (kid, Ev.dispatch "kernel_restarting" kid)
  match idStep with
  | .error e => (s, [], .error e)
  | .ok (kernel_id, ev0) =>
    match eng.image with
    | none => (s, [ev0], .error .dockerError)
    | some info =>
      match s.restarting_kernels kernel_id with
      | some sig =>
        match s.container_registry kernel_id with
        | none => (s, [ev0], .error .keyError)
        | some r =>
          let core_set := r.core_set
          let any_core := core_set.headD 0
          let numa_node := nodeOfCpu s.container_cpu_map.topology any_core
          if sig then
            createKernelRest cfg eng kernel_id lang info numa_node core_set s [ev0]
          else
            ({ s with restarting_kernels := eraseKey s.restarting_kernels kernel_id },
             [ev0, Ev.scheduleClean kernel_id], .error .timeoutError)
      | none =>
        if s.workdirs kernel_id then (s, [ev0], .error .osError)
        else
          let s1 := { s with workdirs := fun k => if k = kernel_id then true else s.workdirs k }
          let num_cores := min s1.container_cpu_map.num_cores info.maxcores
          let alloc_result := s1.container_cpu_map.alloc num_cores
          let numa_node := alloc_result.1.1
          let core_set := alloc_result.1.2
          let s2 := { s1 with container_cpu_map := alloc_result.2 }
          createKernelRest cfg eng kernel_id lang info numa_node core_set s2 [ev0]

/-- Embeds `restart_kernel` (server.py lines 186-196).  Registers an unset signal in
`restarting_kernels`, destroys the old container with reason `restarting`,
then re-creates the kernel under the same id.  The `die` event of the killed
container triggers `clean_kernel` concurrently with the signal wait inside
`_create_kernel`; on a restarting kernel that clean only sets the signal, so
the cooperative schedule is modelled by sequencing it (when `dieDelete` is
`some`) between the destroy and the create.  Only after a successful create is
the restarting entry removed; on any failure the exception propagates with the
entry left behind. -/
def restartKernel (cfg : AgentConfig) (deng : DestroyEngine) (ceng : CreateEngine)
    (dieDelete : Option DeleteOutcome) (genId : String)
    (s : AgentState) (kernel_id : String) :
    AgentState × List Ev × Except AgentErr (Nat × Nat) :=
  let s0 := { s with restarting_kernels := updateKey s.restarting_kernels kernel_id false }
  let d := destroyKernel deng s0 kernel_id "restarting"
  let c :=
    match dieDelete with
    | some delOutcome => cleanKernel delOutcome d.1 kernel_id
    | none => (d.1, ([] : List Ev))
  match c.1.container_registry kernel_id with
  | none => (c.1, d.2 ++ c.2, .error .keyError)
  | some r =>
    let cr := createKernel cfg ceng genId r.lang (some kernel_id) c.1
    match cr.2.2 with
    | .error e => (cr.1, d.2 ++ c.2 ++ cr.2.1, .error e)
    | .ok _ =>
      let s4 :=
        match cr.1.restarting_kernels kernel_id with
        | some _ => { cr.1 with restarting_kernels := eraseKey cr.1.restarting_kernels kernel_id }
        | none => cr.1
      match s4.container_registry kernel_id with
      | none => (s4, d.2 ++ c.2 ++ cr.2.1, .error .keyError)
      | some r2 => (s4, d.2 ++ c.2 ++ cr.2.1, .ok (r2.stdin_port, r2.stdout_port))

/-- A result payload produced by `runner.get_next_result`.  The flag
`upload_output_files` is `nmget(result, 'options.upload_output_files', True)`. -/
structure RunResult where
  status : String
  stdout : String
  stderr : String
  upload_output_files : Bool := true
deriving DecidableEq, Repr

/-- What happens while `_execute_code` awaits `runner.get_next_result`:
the task is cancelled, the await raises, or a result arrives. -/
inductive RunnerOutcome
  | cancelled
  | errored
  | value (r : RunResult)
deriving DecidableEq, Repr

/-- The result map returned by `_execute_code` (server.py lines 432-441); the
`exceptions` key is always the empty list there, and `match_result` is the key
added by the `execute_code` RPC method when a match spec was supplied. -/
structure ExecOut where
  stdout : String
  stderr : String
  status : String
  exceptions : List (String × String) := []
  files : List String := []
  match_result : Option Bool := none
deriving DecidableEq, Repr

/-- The external observations consumed by one `_execute_code` call: the
monotonic clock, the `scandir` snapshots of the workdir taken at relay
construction and after completion, and the relative paths returned by
`upload_output_files_to_s3`. -/
structure ExecEnv where
  now : Nat
  scan : FileStats
  finalScan : FileStats
  uploaded : List String
deriving DecidableEq, Repr

/-- Embeds `_execute_code` (server.py lines 364-444).  Updates `last_used` and
`num_queries`, reuses the existing relay or constructs a new one (snapshotting
`initial_file_stats`), records `runner_task`, and awaits the next result.
Cancellation closes the relay, drops `runner`, returns `None`; the `finally`
always drops `runner_task`.  A finished or exec-timeout result closes and
drops the relay, optionally uploads the workdir diff, and deletes
`initial_file_stats`.  The exec-timeout re-check then reads the misspelled
attribute `self.container_resgistry`, so that branch raises `AttributeError`
(re-raised by the bare `except` at line 444) instead of scheduling a destroy. -/
def executeCode (env : ExecEnv) (outcome : RunnerOutcome) (entry_id kernel_id : String)
    (s : AgentState) : AgentState × List Ev × Except AgentErr (Option ExecOut) :=
  match s.container_registry kernel_id with
  | none => (s, [], .error .keyError)
  | some r =>
    let r1 := { r with last_used := env.now, num_queries := r.num_queries + 1 }
    let relayStep :=
      match r1.runner with
      | some _ => (r1, ([] : List Ev))
      | none =>
        let runner : KernelRunner :=
          { kernel_id := kernel_id
            container_ip := r1.container_ip
            repl_in_port := r1.repl_in_port
            repl_out_port := r1.repl_out_port
            exec_timeout := r1.exec_timeout
            features := ["input", "continuation"] }
        ({ r1 with initial_file_stats := some env.scan, runner := some runner },
         [Ev.runnerStarted kernel_id])
    let r2 := relayStep.1
    let t0 := relayStep.2
    let r3 := { r2 with runner_task := true }
    match outcome with
    | .cancelled =>
      let r4 := { r3 with runner := none, runner_task := false }
      ({ s with container_registry := updateKey s.container_registry kernel_id r4 },
       t0 ++ [Ev.runnerClosed kernel_id], .ok none)
    | .errored =>
      let r4 := { r3 with runner_task := false }
      ({ s with container_registry := updateKey s.container_registry kernel_id r4 },
       t0, .error .runtimeError)
    | .value res =>
      let r4 := { r3 with runner_task := false }
      if res.status = "finished" || res.status = "exec-timeout" then
        let r5 := { r4 with runner := none }
        let t1 := t0 ++ [Ev.runnerClosed kernel_id]
        let uploadStep : Except AgentErr (List String × List Ev) :=
          if res.upload_output_files then
            match r5.initial_file_stats with
            | none => .error .keyError
            | some _ => .ok (env.uploaded, t1 ++ [Ev.upload entry_id])
          else .ok ([], t1)
        match uploadStep with
        | .error e =>
          ({ s with container_registry := updateKey s.container_registry kernel_id r5 },
           t1, .error e)
        | .ok (uploaded, t2) =>
          match r5.initial_file_stats with
          | none =>
            ({ s with container_registry := updateKey s.container_registry kernel_id r5 },
             t2, .error .keyError)
          | some _ =>
            let r6 := { r5 with initial_file_stats := none }
            let s1 := { s with container_registry := updateKey s.container_registry kernel_id r6 }
            if res.status = "exec-timeout" then
              (s1, t2, .error .attributeError)
            else
              (s1, t2, .ok (some { stdout := res.stdout, stderr := res.stderr,
                                   status := res.status, files := uploaded }))
      else
        let s1 := { s with container_registry := updateKey s.container_registry kernel_id r4 }
        (s1, t0, .ok (some { stdout := res.stdout, stderr := res.stderr,
                             status := res.status, files := [] }))

/-- A value stored under a key of a match-spec dict: a string or anything
else. -/
inductive PyVal
  | str (s : String)
  | other
deriving DecidableEq, Repr

/-- A match-spec dict; `none` at a field models a missing key. -/
structure MatchDict where
  op : Option String := none
  target : Option String := none
  value : Option PyVal := none
deriving DecidableEq, Repr

/-- Python `value in content` on strings: substring containment. -/
def strContains (haystack needle : String) : Bool :=
  haystack.data.tails.any (fun t => needle.data.isPrefixOf t)

/-- Embeds `match_result` (server.py lines 123-147).  A missing key raises
`TypeError`; an invalid operator, target or a non-string value fails the
corresponding `assert`.  For targets stdout/stderr the content is that stream;
for target exception the content is the name of the last recorded exception,
or the match is `False` when none was recorded.  `re.search` enters as the
external parameter `regexSearch`. -/
def match_result (regexSearch : String → String → Bool) (result : ExecOut)
    (m : MatchDict) : Except AgentErr Bool :=
  match m.op, m.target, m.value with
  | some op, some target, some value =>
    if !(op = "contains" || op = "equal" || op = "regex") then .error .assertionError
    else if !(target = "stdout" || target = "stderr" || target = "exception") then
      .error .assertionError
    else
      match value with
      | .other => .error .assertionError
      | .str v =>
        let content? : Option String :=
          if target = "stdout" then some result.stdout
          else if target = "stderr" then some result.stderr
          else if result.exceptions.length > 0 then
            some (result.exceptions.getLastD ("", "")).1
          else none
        match content? with
        | none => .ok false
        | some content =>
          if op = "contains" then .ok (strContains content v)
          else if op = "equal" then .ok (v == content)
          else .ok (regexSearch v content)
  | _, _, _ => .error .typeError

/-- The `execute_code` RPC method (server.py lines 198-206): run
`_execute_code`, then, when a (truthy) match spec was supplied, store
`match_result` into the result map.  A cancelled call returned `None`, so the
item assignment on it would raise `TypeError`. -/
def execute_code (env : ExecEnv) (outcome : RunnerOutcome)
    (regexSearch : String → String → Bool)
    (entry_id kernel_id : String) (matchSpec? : Option MatchDict) (s : AgentState) :
    AgentState × List Ev × Except AgentErr (Option ExecOut) :=
  let e := executeCode env outcome entry_id kernel_id s
  match e.2.2 with
  | .error err => (e.1, e.2.1, .error err)
  | .ok none =>
    match matchSpec? with
    | some _ => (e.1, e.2.1, .error .typeError)
    | none => (e.1, e.2.1, .ok none)
  | .ok (some out) =>
    match matchSpec? with
    | none => (e.1, e.2.1, .ok (some out))
    | some m =>
      match match_result regexSearch out m with
      | .error err => (e.1, e.2.1, .error err)
      | .ok b => (e.1, e.2.1, .ok (some { out with match_result := some b }))

/-! ## Service-port declaration parser (`src/src/ai/backend/agent/utils.py`) -/

/-- A parsed service-port entry (the dict built at utils.py lines 97-102). -/
structure ServicePort where
  name : String
  protocol : String
  container_ports : List Nat
  host_ports : List (Option Nat)
deriving DecidableEq, Repr

/-- Decides `\w` on the ASCII labels fed to `parse_service_ports`. -/
def isWordChar (c : Char) : Bool := c.isAlphanum || c = '_'

/-- Numeric value of a digit run (`int` on the matched group). -/
def digitsToNat (ds : List Char) : Nat :=
  ds.foldl (fun n c => n * 10 + (c.toNat - 48)) 0

theorem length_dropWhile_le (p : Char → Bool) (l : List Char) :
    (l.dropWhile p).length ≤ l.length := by
  induction l with
  | nil => simp
  | cons c cs ih =>
    by_cases h : p c
    · simp only [List.dropWhile_cons, h, if_true]
      exact Nat.le_succ_of_le ih
    · simp [List.dropWhile_cons, h]

theorem length_dropWhile_lt (p : Char → Bool) (l : List Char)
    (h : l.takeWhile p ≠ []) : (l.dropWhile p).length < l.length := by
  have hl := congrArg List.length (List.takeWhile_append_dropWhile (p := p) (l := l))
  rw [List.length_append] at hl
  have : 0 < (l.takeWhile p).length := List.length_pos.mpr h
  omega

/-- The regex alternative `\[\d+(?:,\d+)*\]`: digit groups separated by commas
until the closing bracket, returning the rest of the input.  The fuel argument
makes the recursion structural; every recursive step consumes at least one
character (see `parseBracketTail_rest_length`), so with fuel above the input
length the fuel-exhaustion branch is unreachable
(`parseBracketTail_fuel_stable`). -/
def parseBracketTail : Nat → List Nat → List Char → Option (List Nat × List Char)
  | 0, _, _ => none
  | fuel + 1, acc, cs =>
    if cs.takeWhile Char.isDigit = [] then none
    else
      match cs.dropWhile Char.isDigit with
      | ']' :: rest => some (acc ++ [digitsToNat (cs.takeWhile Char.isDigit)], rest)
      | ',' :: rest => parseBracketTail fuel (acc ++ [digitsToNat (cs.takeWhile Char.isDigit)]) rest
      | _ => none

theorem parseBracketTail_rest_length (fuel : Nat) :
    ∀ (cs : List Char) (acc ports : List Nat) (rest : List Char),
      parseBracketTail fuel acc cs = some (ports, rest) → rest.length < cs.length := by
  induction fuel with
  | zero =>
    intro cs acc ports rest h
    simp [parseBracketTail] at h
  | succ fuel ih =>
    intro cs acc ports rest h
    rw [parseBracketTail] at h
    split at h
    · exact absurd h (by simp)
    · rename_i hne
      split at h
      · rename_i rest1 h2
        have hle := length_dropWhile_le Char.isDigit cs
        rw [h2] at hle
        simp only [List.length_cons] at hle
        simp only [Option.some.injEq, Prod.mk.injEq] at h
        obtain ⟨-, hr⟩ := h
        subst hr
        omega
      · rename_i rest1 h2
        have hlt := length_dropWhile_lt Char.isDigit cs hne
        rw [h2] at hlt
        simp only [List.length_cons] at hlt
        have := ih rest1 _ _ _ h
        omega
      · exact absurd h (by simp)

theorem parseBracketTail_fuel_stable (fuel : Nat) :
    ∀ (cs : List Char), cs.length ≤ fuel → ∀ (acc : List Nat),
      parseBracketTail (fuel + 1) acc cs = parseBracketTail (cs.length + 1) acc cs := by
  induction fuel using Nat.strong_induction_on with
  | _ fuel ih =>
    intro cs hcs acc
    rw [parseBracketTail, parseBracketTail]
    by_cases hd : cs.takeWhile Char.isDigit = []
    · simp [hd]
    · simp only [hd, if_false]
      have hlt := length_dropWhile_lt Char.isDigit cs hd
      cases h2 : cs.dropWhile Char.isDigit with
      | nil => rfl
      | cons c rest =>
        rw [h2] at hlt
        simp only [List.length_cons] at hlt
        by_cases hc1 : c = ']'
        · subst hc1; rfl
        · by_cases hc2 : c = ','
          · subst hc2
            simp only
            obtain ⟨f, hf⟩ : ∃ f, fuel = f + 1 := ⟨fuel - 1, by omega⟩
            obtain ⟨g, hg⟩ : ∃ g, cs.length = g + 1 := ⟨cs.length - 1, by omega⟩
            rw [hf, hg]
            rw [ih f (by omega) rest (by omega) _]
            rw [ih g (by omega) rest (by omega) _]
          · have : ∀ (n : Nat) (a : List Nat),
                (match (c :: rest : List Char) with
                 | ']' :: r => some (a ++ [digitsToNat (cs.takeWhile Char.isDigit)], r)
                 | ',' :: r => parseBracketTail n (a ++ [digitsToNat (cs.takeWhile Char.isDigit)]) r
                 | _ => none) = none := by
              intro n a
              split
              · rename_i heq
                injection heq with hch
                exact absurd hch hc1
              · rename_i heq
                injection heq with hch
                exact absurd hch hc2
              · rfl
            rw [this, this]

/-- The ports group of the service-ports regex: the bracketed list alternative
or a single digit run.  The bracket parser receives fuel that
`parseBracketTail_fuel_stable` shows to be sufficient. -/
def parsePortsToken : List Char → Option (List Nat × List Char)
  | '[' :: rest => parseBracketTail (rest.length + 1) [] rest
  | cs =>
    if cs.takeWhile Char.isDigit = [] then none
    else some ([digitsToNat (cs.takeWhile Char.isDigit)], cs.dropWhile Char.isDigit)

theorem parsePortsToken_rest_length (cs : List Char) (ports : List Nat)
    (rest : List Char) (h : parsePortsToken cs = some (ports, rest)) :
    rest.length < cs.length := by
  unfold parsePortsToken at h
  split at h
  · rename_i tl
    have := parseBracketTail_rest_length (tl.length + 1) tl [] ports rest h
    simp only [List.length_cons]
    omega
  · split at h
    · exact absurd h (by simp)
    · rename_i hne
      simp only [Option.some.injEq, Prod.mk.injEq] at h
      obtain ⟨-, hr⟩ := h
      subst hr
      exact length_dropWhile_lt Char.isDigit _ hne

/-- One application of the anchored regex
`^(\w+):(\w+):(\[\d+(?:,\d+)*\]|\d+)(?:,|$)` at the start of the input,
returning the three groups and the input with the whole match consumed.  The
greedy `\w+` and `\d+` runs admit no other successful backtracking, so the
parse is deterministic. -/
def matchServicePortsEntry (cs : List Char) :
    Option (String × String × List Nat × List Char) :=
  if cs.takeWhile isWordChar = [] then none
  else
    match cs.dropWhile isWordChar with
    | ':' :: r2 =>
      if r2.takeWhile isWordChar = [] then none
      else
        match r2.dropWhile isWordChar with
        | ':' :: r4 =>
          match parsePortsToken r4 with
          | none => none
          | some (ports, r5) =>
            match r5 with
            | [] =>
              some (String.mk (cs.takeWhile isWordChar),
                    String.mk (r2.takeWhile isWordChar), ports, [])
            | ',' :: r6 =>
              some (String.mk (cs.takeWhile isWordChar),
                    String.mk (r2.takeWhile isWordChar), ports, r6)
            | _ => none
        | _ => none
    | _ => none

theorem matchServicePortsEntry_rest_length (cs : List Char)
    (name proto : String) (ports : List Nat) (rest : List Char)
    (h : matchServicePortsEntry cs = some (name, proto, ports, rest)) :
    rest.length < cs.length := by
  unfold matchServicePortsEntry at h
  split at h
  · exact absurd h (by simp)
  · rename_i hname
    split at h
    case _ r2 h1 =>
      have hr2 : r2.length < cs.length := by
        have hle := length_dropWhile_le isWordChar cs
        rw [h1] at hle
        simp only [List.length_cons] at hle
        omega
      split at h
      · exact absurd h (by simp)
      · rename_i hproto
        split at h
        case _ r4 h3 =>
          have hr4 : r4.length < r2.length := by
            have hle := length_dropWhile_le isWordChar r2
            rw [h3] at hle
            simp only [List.length_cons] at hle
            omega
          split at h
          · exact absurd h (by simp)
          case _ ports1 r5 h5 =>
            have hr5 : r5.length < r4.length := parsePortsToken_rest_length r4 ports1 r5 h5
            split at h
            · simp only [Option.some.injEq, Prod.mk.injEq] at h
              obtain ⟨-, -, -, hr⟩ := h
              subst hr
              simp only [List.length_nil]
              omega
            case _ r6 =>
              simp only [Option.some.injEq, Prod.mk.injEq] at h
              obtain ⟨-, -, -, hr⟩ := h
              subst hr
              simp only [List.length_cons] at hr5
              omega
            · exact absurd h (by simp)
        all_goals exact absurd h (by simp)
    all_goals exact absurd h (by simp)

/-- The per-port validation loop (utils.py lines 89-96): duplicate, privileged
(at most 1024) and reserved (2000-2003) ports raise `ValueError`; accepted
ports are added to `used_ports`. -/
def checkPorts (used : List Nat) : List Nat → Except String (List Nat)
  | [] => .ok used
  | p :: ps =>
    if used.contains p then .error "port already used by another service port"
    else if p ≤ 1024 then .error "service port number must be larger than 1024"
    else if p = 2000 || p = 2001 || p = 2002 || p = 2003 then
      .error "service ports 2000 to 2003 are reserved for internal use"
    else checkPorts (p :: used) ps

/-- The `while True` loop of `parse_service_ports` (utils.py lines 75-107):
apply the regex, consume the match, silently skip `pty` entries, reject
unsupported protocols, validate and accumulate ports, and stop when the regex
no longer matches or the input is exhausted. -/
def parseServicePortsLoop : Nat → List Char → List Nat → List ServicePort →
    Except String (List ServicePort)
  | 0, _, _, items => .ok items.reverse
  | fuel + 1, cs, used, items =>
    match matchServicePortsEntry cs with
    | none => .ok items.reverse
    | some (name, proto, ports, rest) =>
      if proto = "pty" then parseServicePortsLoop fuel rest used items
      else if !(proto = "tcp" || proto = "http") then
        .error "unsupported service port protocol"
      else
        match checkPorts used ports with
        | .error e => .error e
        | .ok used1 =>
          let items1 : List ServicePort :=
            { name := name, protocol := proto, container_ports := ports,
              host_ports := ports.map (fun _ => none) } :: items
          if rest = [] then .ok items1.reverse
          else parseServicePortsLoop fuel rest used1 items1

theorem parseServicePortsLoop_fuel_stable (fuel : Nat) :
    ∀ (cs : List Char), cs.length ≤ fuel → ∀ (used : List Nat) (items : List ServicePort),
      parseServicePortsLoop (fuel + 1) cs used items =
        parseServicePortsLoop (cs.length + 1) cs used items := by
  induction fuel using Nat.strong_induction_on with
  | _ fuel ih =>
    intro cs hcs used items
    rw [parseServicePortsLoop, parseServicePortsLoop]
    cases hm : matchServicePortsEntry cs with
    | none => rfl
    | some v =>
      obtain ⟨name, proto, ports, rest⟩ := v
      have hlt := matchServicePortsEntry_rest_length cs name proto ports rest hm
      obtain ⟨f, hf⟩ : ∃ f, fuel = f + 1 := ⟨fuel - 1, by omega⟩
      obtain ⟨g, hg⟩ : ∃ g, cs.length = g + 1 := ⟨cs.length - 1, by omega⟩
      simp only
      by_cases hpty : proto = "pty"
      · simp only [hpty, if_true]
        rw [hf, hg, ih f (by omega) rest (by omega), ih g (by omega) rest (by omega)]
      · simp only [hpty, if_false]
        cases hck : checkPorts used ports with
        | error e => simp only
        | ok used1 =>
          simp only
          by_cases hrest : rest = []
          · simp [hrest]
          · simp only [hrest, if_false]
            rw [hf, hg, ih f (by omega) rest (by omega), ih g (by omega) rest (by omega)]

/-- Embeds `parse_service_ports` (utils.py lines 72-107), with `ValueError` as the
`Except` error case.  The fuel supplied to the loop exceeds the input length,
and each iteration consumes at least one character
(`matchServicePortsEntry_rest_length`), so by
`parseServicePortsLoop_fuel_stable` the fuel never runs out. -/
def parse_service_ports (s : String) : Except String (List ServicePort) :=
  parseServicePortsLoop (s.data.length + 1) s.data [] []

/-! ## Concrete sample data used by the closed theorems and witnesses -/

/-- A registered kernel owning core 0, as inserted by a successful create. -/
def sampleRecord : KernelRecord :=
  { lang := "python3", version := 1, container_id := "c0", container_ip := "127.0.0.1",
    repl_in_port := 2000, repl_out_port := 2001, stdin_port := 2002, stdout_port := 2003,
    cpu_shares := 1024, numa_node := 0, core_set := [0], mem_limit := "128m",
    exec_timeout := 10, num_queries := 0, last_used := 0 }

/-- Image labels of a plain one-core image. -/
def sampleImage : ImageInfo :=
  { version := 1, maxmem := "128m", timeout := 10, maxcores := 1,
    envs_corecount := [], nvidia := false }

def sampleConfig : AgentConfig := { exec_timeout := 180, now := 0 }

/-- One kernel `"k"` registered, its core allocated, its workdir and container
present. -/
def sampleState : AgentState :=
  { container_registry := fun k => if k = "k" then some sampleRecord else none
    container_cpu_map := { topology := [[0, 1]], used := [0] }
    restarting_kernels := fun _ => none
    blocking_cleans := fun _ => none
    workdirs := fun k => k == "k"
    containers := fun c => c == "c0" }

/-- A fresh agent: empty registry, all cores free, nothing restarting. -/
def emptyState : AgentState :=
  { container_registry := fun _ => none
    container_cpu_map := { topology := [[0, 1]], used := [] }
    restarting_kernels := fun _ => none
    blocking_cleans := fun _ => none
    workdirs := fun _ => false
    containers := fun _ => false }

/-! ## Claims -/

/-- Claim C1 (code bug in the source).  `_destroy_kernel` is claimed never to
remove a kernel record or free its core set, whatever engine-error branch is
taken.  The kill-404 branch (server.py lines 354-358) does both: starting from
a state with kernel `"k"` owning core 0, a destroy whose engine kill answers
404 leaves the registry without `"k"` and the allocator with no used cores. -/
theorem destroy_kill404_removes_record_and_frees_cores :
    ((destroyKernel { stats := some 5, kill := .err404 } sampleState "k"
        "user-requested").1.container_registry "k" = none) ∧
    ((destroyKernel { stats := some 5, kill := .err404 } sampleState "k"
        "user-requested").1.container_cpu_map.used = []) := by
  exact ⟨rfl, rfl⟩

/-- Claim C2 (code bug in the source).  A create that fails after the
allocator granted cores is claimed to return them before propagating.  No
branch of `_create_kernel` (server.py lines 254-330) frees cores: with the
container-create call failing right after core 0 was allocated, the error
propagates while the allocator still holds core 0. -/
theorem create_failure_after_alloc_leaks_cores :
    ((createKernel sampleConfig
        { image := some sampleImage, volumesOk := true, nvidiaOk := true,
          created := none, startOk := true, ports := none }
        "kid" "python3" none emptyState).2.2 = .error .dockerError) ∧
    ((createKernel sampleConfig
        { image := some sampleImage, volumesOk := true, nvidiaOk := true,
          created := none, startOk := true, ports := none }
        "kid" "python3" none emptyState).1.container_cpu_map.used = [0]) := by
  exact ⟨rfl, rfl⟩

/-- Claim C4 (code bug in the source).  On an `exec-timeout` result
`_execute_code` is claimed to schedule a destroy and still return its result
map.  The re-check at server.py line 429 reads the misspelled attribute
`self.container_resgistry`, so the call raises `AttributeError` instead: no
destroy is scheduled and no result map is returned. -/
theorem execute_exec_timeout_raises_attribute_error :
    ((executeCode { now := 1, scan := [], finalScan := [], uploaded := [] }
        (.value { status := "exec-timeout", stdout := "", stderr := "" })
        "e" "k" sampleState).2.2 = .error .attributeError) ∧
    (Ev.scheduleDestroy "k" "exec-timeout" ∉
      (executeCode { now := 1, scan := [], finalScan := [], uploaded := [] }
        (.value { status := "exec-timeout", stdout := "", stderr := "" })
        "e" "k" sampleState).2.1) := by
  exact ⟨rfl, by decide⟩

/-- Claim C5 (code bug in the source).  A restart of an unknown kernel id is
claimed to fail without leaving a restarting entry, reserving cores, or
inserting a record.  It does fail (`KeyError` at server.py line 190) without
touching cores or the registry, but the signal registered at line 188 is only
deleted after a successful create, so the `restarting_kernels` entry for the
unknown id is left behind. -/
theorem restart_unknown_kernel_leaks_restarting_entry :
    ((restartKernel sampleConfig { stats := some 0, kill := .ok }
        { image := some sampleImage, volumesOk := true, nvidiaOk := true,
          created := some "c1", startOk := true, ports := some (1, 2, 3, 4) }
        none "gen" emptyState "nope").2.2 = .error .keyError) ∧
    ((restartKernel sampleConfig { stats := some 0, kill := .ok }
        { image := some sampleImage, volumesOk := true, nvidiaOk := true,
          created := some "c1", startOk := true, ports := some (1, 2, 3, 4) }
        none "gen" emptyState "nope").1.restarting_kernels "nope" = some false) ∧
    ((restartKernel sampleConfig { stats := some 0, kill := .ok }
        { image := some sampleImage, volumesOk := true, nvidiaOk := true,
          created := some "c1", startOk := true, ports := some (1, 2, 3, 4) }
        none "gen" emptyState "nope").1.container_registry "nope" = none) ∧
    ((restartKernel sampleConfig { stats := some 0, kill := .ok }
        { image := some sampleImage, volumesOk := true, nvidiaOk := true,
          created := some "c1", startOk := true, ports := some (1, 2, 3, 4) }
        none "gen" emptyState "nope").1.container_cpu_map.used = []) := by
  exact ⟨rfl, rfl, rfl, rfl⟩

/-- Claim C3.  When `_create_kernel` runs for a kernel id present in
`restarting_kernels` and the signal is not set within the 10-second deadline
(signal value `false`), the call removes the restarting entry, schedules
`clean_kernel`, and propagates the timeout — the engine container-create is
never reached and the state is otherwise untouched. -/
theorem create_restarting_timeout (cfg : AgentConfig) (eng : CreateEngine)
    (genId lang kid : String) (s : AgentState) (r : KernelRecord) (info : ImageInfo)
    (h1 : s.restarting_kernels kid = some false)
    (h2 : s.container_registry kid = some r)
    (h3 : eng.image = some info) :
    createKernel cfg eng genId lang (some kid) s =
      ({ s with restarting_kernels := eraseKey s.restarting_kernels kid },
       [Ev.dispatch "kernel_restarting" kid, Ev.scheduleClean kid],
       .error .timeoutError) := by
  unfold createKernel
  simp [h1, h2, h3]

/-- Witness for C3 at a concrete state: kernel `"k"` is registered and in
`restarting_kernels` with its signal unset; the create invoked for it times
out, drops the restarting entry and schedules a clean. -/
theorem create_restarting_timeout_witness :
    ({ sampleState with
        restarting_kernels := fun k => if k = "k" then some false else none
       } : AgentState).restarting_kernels "k" = some false ∧
    createKernel sampleConfig
        { image := some sampleImage, volumesOk := true, nvidiaOk := true,
          created := some "c1", startOk := true, ports := some (1, 2, 3, 4) }
        "gen" "python3" (some "k")
        { sampleState with
          restarting_kernels := fun k => if k = "k" then some false else none } =
      ({ sampleState with
          restarting_kernels :=
            eraseKey (fun k => if k = "k" then some false else none) "k" },
       [Ev.dispatch "kernel_restarting" "k", Ev.scheduleClean "k"],
       .error .timeoutError) :=
  ⟨rfl,
   create_restarting_timeout sampleConfig
     { image := some sampleImage, volumesOk := true, nvidiaOk := true,
       created := some "c1", startOk := true, ports := some (1, 2, 3, 4) }
     "gen" "python3" "k"
     { sampleState with
       restarting_kernels := fun k => if k = "k" then some false else none }
     sampleRecord sampleImage rfl rfl rfl⟩

/-- The registry record left behind by a cancelled `_execute_code` call. -/
def cancelledRecord (env : ExecEnv) (r : KernelRecord) : KernelRecord :=
  { r with last_used := env.now, num_queries := r.num_queries + 1,
           runner := none, runner_task := false,
           initial_file_stats :=
             match r.runner with
             | some _ => r.initial_file_stats
             | none => some env.scan }

/-- Characterization of a cancelled `_execute_code` call on a registered
kernel: the relay is closed, the record keeps neither `runner` nor
`runner_task`, and the call returns `None`. -/
theorem executeCode_cancelled_eq (env : ExecEnv) (entry kid : String)
    (s : AgentState) (r : KernelRecord) (h1 : s.container_registry kid = some r) :
    executeCode env .cancelled entry kid s =
      ({ s with container_registry :=
          updateKey s.container_registry kid (cancelledRecord env r) },
       (match r.runner with
        | some _ => ([] : List Ev)
        | none => [Ev.runnerStarted kid]) ++ [Ev.runnerClosed kid],
       .ok none) := by
  cases hr : r.runner <;> simp [executeCode, h1, hr, cancelledRecord]

/-- Claim C6.  A cancelled `execute_code` closes the relay, leaves the kernel
record with neither a `runner` nor a `runner_task` field, returns no result,
and a subsequent `execute_code` on the same kernel succeeds by constructing a
new relay. -/
theorem execute_code_cancelled (env env2 : ExecEnv) (entry entry2 kid : String)
    (s : AgentState) (r : KernelRecord) (res : RunResult)
    (h1 : s.container_registry kid = some r)
    (h2 : res.status = "finished") :
    ((executeCode env .cancelled entry kid s).2.2 = .ok none) ∧
    (Ev.runnerClosed kid ∈ (executeCode env .cancelled entry kid s).2.1) ∧
    (∃ r1, (executeCode env .cancelled entry kid s).1.container_registry kid = some r1 ∧
           r1.runner = none ∧ r1.runner_task = false) ∧
    ((∃ out, (executeCode env2 (.value res) entry2 kid
        (executeCode env .cancelled entry kid s).1).2.2 = .ok (some out)) ∧
     Ev.runnerStarted kid ∈ (executeCode env2 (.value res) entry2 kid
        (executeCode env .cancelled entry kid s).1).2.1) := by
  rw [executeCode_cancelled_eq env entry kid s r h1]
  refine ⟨rfl, by simp, ⟨_, updateKey_same _ _ _, rfl, rfl⟩, ?_⟩
  cases hu : res.upload_output_files <;>
    simp [executeCode, updateKey_same, h2, hu,
          show (cancelledRecord env r).runner = none from rfl]

/-- Witness for C6: cancelling an execution on the registered kernel `"k"` of
`sampleState` returns no result, closes the relay, clears both fields, and a
following execution with a finished result succeeds on a fresh relay. -/
theorem execute_code_cancelled_witness :
    sampleState.container_registry "k" = some sampleRecord ∧
    (({ status := "finished", stdout := "out", stderr := "" } : RunResult).status
        = "finished") ∧
    (((executeCode { now := 1, scan := [], finalScan := [], uploaded := [] }
        .cancelled "e1" "k" sampleState).2.2 = .ok none) ∧
     (Ev.runnerClosed "k" ∈ (executeCode { now := 1, scan := [], finalScan := [], uploaded := [] }
        .cancelled "e1" "k" sampleState).2.1) ∧
     (∃ r1, (executeCode { now := 1, scan := [], finalScan := [], uploaded := [] }
          .cancelled "e1" "k" sampleState).1.container_registry "k" = some r1 ∧
            r1.runner = none ∧ r1.runner_task = false) ∧
     ((∃ out, (executeCode { now := 2, scan := [], finalScan := [], uploaded := [] }
          (.value { status := "finished", stdout := "out", stderr := "" }) "e2" "k"
          (executeCode { now := 1, scan := [], finalScan := [], uploaded := [] }
            .cancelled "e1" "k" sampleState).1).2.2 = .ok (some out)) ∧
      Ev.runnerStarted "k" ∈ (executeCode { now := 2, scan := [], finalScan := [], uploaded := [] }
          (.value { status := "finished", stdout := "out", stderr := "" }) "e2" "k"
          (executeCode { now := 1, scan := [], finalScan := [], uploaded := [] }
            .cancelled "e1" "k" sampleState).1).2.1)) :=
  ⟨rfl, rfl,
   execute_code_cancelled
     { now := 1, scan := [], finalScan := [], uploaded := [] }
     { now := 2, scan := [], finalScan := [], uploaded := [] }
     "e1" "e2" "k" sampleState sampleRecord
     { status := "finished", stdout := "out", stderr := "" } rfl rfl⟩

theorem eraseKey_eraseKey {α : Type} (f : String → Option α) (k : String) :
    eraseKey (eraseKey f k) k = eraseKey f k :=
  funext fun x => by by_cases h : x = k <;> simp [eraseKey, h]

theorem setSignal_setSignal (f : String → Option Bool) (k : String) :
    setSignal (setSignal f k) k = setSignal f k :=
  funext fun x => by by_cases h : x = k <;> simp [setSignal, h]

theorem eraseKey_of_none {α : Type} (f : String → Option α) (k : String)
    (h : f k = none) : eraseKey f k = f :=
  funext fun x => by
    by_cases hx : x = k
    · subst hx; simp [eraseKey, h]
    · simp [eraseKey, hx]

/-- Characterization of `clean_kernel` on a kernel id that is not restarting:
the workdir is removed, and, when a record exists, its core set is freed, the
record is removed and `kernel_terminated` is dispatched; an existing
blocking-clean signal is set. -/
theorem cleanKernel_not_restarting_eq (d : DeleteOutcome) (s : AgentState) (kid : String)
    (h : s.restarting_kernels kid = none) :
    cleanKernel d s kid =
      ({ container_registry := eraseKey s.container_registry kid
         container_cpu_map :=
           match s.container_registry kid with
           | some r => s.container_cpu_map.free r.core_set
           | none => s.container_cpu_map
         restarting_kernels := s.restarting_kernels
         blocking_cleans :=
           match s.blocking_cleans kid with
           | some _ => setSignal s.blocking_cleans kid
           | none => s.blocking_cleans
         workdirs := fun k => if k = kid then false else s.workdirs k
         containers :=
           match s.container_registry kid, d with
           | some r, .ok => fun c => if c = r.container_id then false else s.containers c
           | _, _ => s.containers },
       match s.container_registry kid with
       | some _ => [Ev.dispatch "kernel_terminated" kid]
       | none => []) := by
  unfold cleanKernel
  cases hr : s.container_registry kid with
  | none =>
    cases d <;> cases hb : s.blocking_cleans kid <;>
      simp [h, hr, hb, eraseKey_of_none _ _ hr]
  | some r =>
    cases d <;> cases hb : s.blocking_cleans kid <;>
      simp [h, hr, hb]

/-- Claim C8.  For a kernel id not in the restarting table, `clean_kernel` is
idempotent: a second clean leaves the state of the first clean unchanged and
dispatches nothing (`clean_kernel` never raises: every failure of the engine
delete, of the workdir removal and of the registry lookups is caught). -/
theorem clean_nr_registry (d : DeleteOutcome) (s : AgentState) (kid : String)
    (h : s.restarting_kernels kid = none) :
    (cleanKernel d s kid).1.container_registry = eraseKey s.container_registry kid := by
  rw [cleanKernel_not_restarting_eq d s kid h]

theorem clean_nr_cpu (d : DeleteOutcome) (s : AgentState) (kid : String)
    (h : s.restarting_kernels kid = none) :
    (cleanKernel d s kid).1.container_cpu_map =
      match s.container_registry kid with
      | some r => s.container_cpu_map.free r.core_set
      | none => s.container_cpu_map := by
  rw [cleanKernel_not_restarting_eq d s kid h]

theorem clean_nr_restarting (d : DeleteOutcome) (s : AgentState) (kid : String)
    (h : s.restarting_kernels kid = none) :
    (cleanKernel d s kid).1.restarting_kernels = s.restarting_kernels := by
  rw [cleanKernel_not_restarting_eq d s kid h]

theorem clean_nr_blocking (d : DeleteOutcome) (s : AgentState) (kid : String)
    (h : s.restarting_kernels kid = none) :
    (cleanKernel d s kid).1.blocking_cleans =
      match s.blocking_cleans kid with
      | some _ => setSignal s.blocking_cleans kid
      | none => s.blocking_cleans := by
  rw [cleanKernel_not_restarting_eq d s kid h]

theorem clean_nr_workdirs (d : DeleteOutcome) (s : AgentState) (kid : String)
    (h : s.restarting_kernels kid = none) :
    (cleanKernel d s kid).1.workdirs =
      fun k => if k = kid then false else s.workdirs k := by
  rw [cleanKernel_not_restarting_eq d s kid h]

theorem clean_nr_containers (d : DeleteOutcome) (s : AgentState) (kid : String)
    (h : s.restarting_kernels kid = none) :
    (cleanKernel d s kid).1.containers =
      match s.container_registry kid, d with
      | some r, .ok => fun c => if c = r.container_id then false else s.containers c
      | _, _ => s.containers := by
  rw [cleanKernel_not_restarting_eq d s kid h]

theorem clean_nr_events (d : DeleteOutcome) (s : AgentState) (kid : String)
    (h : s.restarting_kernels kid = none) :
    (cleanKernel d s kid).2 =
      match s.container_registry kid with
      | some _ => [Ev.dispatch "kernel_terminated" kid]
      | none => [] := by
  rw [cleanKernel_not_restarting_eq d s kid h]

theorem clean_kernel_idempotent (d1 d2 : DeleteOutcome) (s : AgentState) (kid : String)
    (h : s.restarting_kernels kid = none) :
    ((cleanKernel d2 (cleanKernel d1 s kid).1 kid).1 = (cleanKernel d1 s kid).1) ∧
    ((cleanKernel d2 (cleanKernel d1 s kid).1 kid).2 = []) := by
  have h2 : (cleanKernel d1 s kid).1.restarting_kernels kid = none := by
    rw [clean_nr_restarting d1 s kid h]; exact h
  have hreg : (cleanKernel d1 s kid).1.container_registry kid = none := by
    rw [clean_nr_registry d1 s kid h]; exact eraseKey_same _ _
  refine ⟨AgentState.ext ?_ ?_ ?_ ?_ ?_ ?_, ?_⟩
  · rw [clean_nr_registry d2 _ kid h2, clean_nr_registry d1 s kid h,
        eraseKey_eraseKey]
  · rw [clean_nr_cpu d2 _ kid h2, hreg]
  · rw [clean_nr_restarting d2 _ kid h2]
  · rw [clean_nr_blocking d2 _ kid h2, clean_nr_blocking d1 s kid h]
    cases hb : s.blocking_cleans kid with
    | none => simp [hb]
    | some b => simp [hb, setSignal_setSignal]
  · rw [clean_nr_workdirs d2 _ kid h2, clean_nr_workdirs d1 s kid h]
    funext x
    by_cases hx : x = kid <;> simp [hx]
  · rw [clean_nr_containers d2 _ kid h2, hreg]
  · rw [clean_nr_events d2 _ kid h2, hreg]

/-- Witness for C8: cleaning the registered, non-restarting kernel `"k"` of
`sampleState` twice gives the state of the first clean, and the second clean
dispatches no event. -/
theorem clean_kernel_idempotent_witness :
    sampleState.restarting_kernels "k" = none ∧
    ((cleanKernel .ok (cleanKernel .ok sampleState "k").1 "k").1 =
        (cleanKernel .ok sampleState "k").1) ∧
    ((cleanKernel .ok (cleanKernel .ok sampleState "k").1 "k").2 = []) :=
  ⟨rfl, clean_kernel_idempotent .ok .ok sampleState "k" rfl⟩

theorem updateKey_updateKey {α : Type} (f : String → Option α) (k : String) (v w : α) :
    updateKey (updateKey f k v) k w = updateKey f k w :=
  funext fun x => by by_cases h : x = k <;> simp [updateKey, h]

/-- The registry record after a destroy whose stats collection succeeded and
whose engine kill returned ok: a running execution was cancelled (dropping the
runner fields) and `last_stat` was captured. -/
def destroyedRecord (st : Stat) (r : KernelRecord) : KernelRecord :=
  { r with runner := if r.runner_task then none else r.runner,
           runner_task := false,
           last_stat := some st }

/-- Characterization of `_destroy_kernel` on a registered kernel with
successful stats collection and kill: only the record changes. -/
theorem destroyKernel_kill_ok (st : Stat) (s : AgentState) (kid reason : String)
    (r : KernelRecord) (h : s.container_registry kid = some r) :
    destroyKernel { stats := some st, kill := .ok } s kid reason =
      ({ s with container_registry :=
          updateKey s.container_registry kid (destroyedRecord st r) },
       if r.runner_task then [Ev.runnerClosed kid] else []) := by
  cases hrt : r.runner_task <;>
    simp [destroyKernel, h, hrt, destroyedRecord, updateKey_updateKey]

/-- The fresh registry record inserted by a create that reuses `core_set` on
the restart path, with all engine calls succeeding. -/
def restartedRecord (cfg : AgentConfig) (info : ImageInfo) (cid lang : String)
    (numa : Nat) (core_set : List Nat) (p0 p1 p2 p3 : Nat) : KernelRecord :=
  { lang := lang, version := info.version, container_id := cid,
    container_ip := "127.0.0.1", repl_in_port := p0, repl_out_port := p1,
    stdin_port := p2, stdout_port := p3, cpu_shares := 1024, numa_node := numa,
    core_set := core_set, mem_limit := info.maxmem,
    exec_timeout := min info.timeout cfg.exec_timeout, num_queries := 0,
    last_used := cfg.now }

/-- Characterization of `_create_kernel` on a restarting kernel whose signal
was set in time, with every engine call succeeding: the recorded core set is
reused, the NUMA node is recomputed from one of its cores, and the new record
replaces the old one.  The allocator is not consulted. -/
theorem createKernel_restarting_ok_eq (cfg : AgentConfig) (info : ImageInfo)
    (cid genId lang kid : String) (p0 p1 p2 p3 : Nat) (s : AgentState)
    (r : KernelRecord)
    (h1 : s.restarting_kernels kid = some true)
    (h2 : s.container_registry kid = some r) :
    createKernel cfg
        { image := some info, volumesOk := true, nvidiaOk := true,
          created := some cid, startOk := true, ports := some (p0, p1, p2, p3) }
        genId lang (some kid) s =
      ({ s with
          containers := fun c => if c = cid then true else s.containers c,
          container_registry := updateKey s.container_registry kid
            (restartedRecord cfg info cid lang
              (nodeOfCpu s.container_cpu_map.topology (r.core_set.headD 0))
              r.core_set p0 p1 p2 p3) },
       [Ev.dispatch "kernel_restarting" kid, Ev.engineCreateContainer cid],
       .ok kid) := by
  unfold createKernel createKernelRest
  simp [h1, h2, restartedRecord]

/-- Components of `clean_kernel` on a kernel id present in the restarting
table: only the restarting signal is set (and the engine container possibly
deleted); the registry, the allocator and the workdirs are untouched and no
event is dispatched. -/
theorem clean_restarting_components (d : DeleteOutcome) (s : AgentState)
    (kid : String) (b : Bool) (h : s.restarting_kernels kid = some b) :
    (cleanKernel d s kid).1.container_registry = s.container_registry ∧
    (cleanKernel d s kid).1.container_cpu_map = s.container_cpu_map ∧
    (cleanKernel d s kid).1.workdirs = s.workdirs ∧
    (cleanKernel d s kid).1.restarting_kernels = setSignal s.restarting_kernels kid ∧
    (cleanKernel d s kid).2 = [] := by
  unfold cleanKernel
  cases hr : s.container_registry kid <;> cases d <;> simp [h, hr]

/-- The whole restart pipeline on a registered kernel with every engine call
succeeding and the die event arriving in time: the final record reuses the old
core set, its NUMA node is recomputed from one of its cores, and the call
returns the new stdin and stdout ports. -/
theorem restartKernel_all_ok (cfg : AgentConfig) (st : Stat) (info : ImageInfo)
    (cid genId : String) (p0 p1 p2 p3 : Nat) (d : DeleteOutcome)
    (s : AgentState) (kid : String) (r : KernelRecord)
    (h1 : s.container_registry kid = some r) :
    ((restartKernel cfg { stats := some st, kill := .ok }
        { image := some info, volumesOk := true, nvidiaOk := true,
          created := some cid, startOk := true, ports := some (p0, p1, p2, p3) }
        (some d) genId s kid).1.container_registry kid =
      some (restartedRecord cfg info cid r.lang
        (nodeOfCpu s.container_cpu_map.topology (r.core_set.headD 0))
        r.core_set p0 p1 p2 p3)) ∧
    ((restartKernel cfg { stats := some st, kill := .ok }
        { image := some info, volumesOk := true, nvidiaOk := true,
          created := some cid, startOk := true, ports := some (p0, p1, p2, p3) }
        (some d) genId s kid).2.2 = .ok (p2, p3)) := by
  cases hrt : r.runner_task <;> cases d <;>
    simp [restartKernel, destroyKernel, cleanKernel, createKernel, createKernelRest,
          destroyedRecord, restartedRecord, h1, hrt, updateKey, setSignal, eraseKey]

/-- Claim C7.  While a kernel id is in the restarting table, `clean_kernel`
only sets its signal: the registry, the allocator and the workdirs are
untouched (the core set stays reserved) and nothing is dispatched.  And the
create invoked by `restart_kernel` reuses the recorded core set and its NUMA
node: when every core of the record lies on the recorded node, the record
after the restart has the same `core_set` and `numa_node` as before. -/
theorem restart_preserves_core_set :
    (∀ (d : DeleteOutcome) (s : AgentState) (kid : String) (b : Bool),
       s.restarting_kernels kid = some b →
       (cleanKernel d s kid).1.container_registry = s.container_registry ∧
       (cleanKernel d s kid).1.container_cpu_map = s.container_cpu_map ∧
       (cleanKernel d s kid).1.workdirs = s.workdirs ∧
       (cleanKernel d s kid).1.restarting_kernels kid = some true ∧
       (cleanKernel d s kid).2 = []) ∧
    (∀ (cfg : AgentConfig) (st : Stat) (info : ImageInfo) (cid genId : String)
       (p0 p1 p2 p3 : Nat) (d : DeleteOutcome) (s : AgentState) (kid : String)
       (r : KernelRecord),
       s.container_registry kid = some r →
       r.core_set ≠ [] →
       (∀ c ∈ r.core_set, nodeOfCpu s.container_cpu_map.topology c = r.numa_node) →
       ∃ r2, (restartKernel cfg { stats := some st, kill := .ok }
                { image := some info, volumesOk := true, nvidiaOk := true,
                  created := some cid, startOk := true, ports := some (p0, p1, p2, p3) }
                (some d) genId s kid).1.container_registry kid = some r2 ∧
             r2.core_set = r.core_set ∧ r2.numa_node = r.numa_node ∧
             (restartKernel cfg { stats := some st, kill := .ok }
                { image := some info, volumesOk := true, nvidiaOk := true,
                  created := some cid, startOk := true, ports := some (p0, p1, p2, p3) }
                (some d) genId s kid).2.2 = .ok (r2.stdin_port, r2.stdout_port)) := by
  constructor
  · intro d s kid b h
    obtain ⟨hr, hc, hw, hrs, he⟩ := clean_restarting_components d s kid b h
    exact ⟨hr, hc, hw, by rw [hrs]; exact setSignal_same _ _, he⟩
  · intro cfg st info cid genId p0 p1 p2 p3 d s kid r h1 h3 h4
    obtain ⟨hreg, hres⟩ :=
      restartKernel_all_ok cfg st info cid genId p0 p1 p2 p3 d s kid r h1
    have hmem : r.core_set.headD 0 ∈ r.core_set := by
      cases hcs : r.core_set with
      | nil => exact absurd hcs h3
      | cons a l => simp
    exact ⟨_, hreg, rfl, h4 _ hmem, hres⟩

/-- Witness for C7: cleaning the restarting kernel `"k"` dispatches nothing,
and restarting the registered kernel `"k"` of `sampleState` (core set `[0]` on
node 0) yields a record with the same core set and NUMA node. -/
theorem restart_preserves_core_set_witness :
    (({ sampleState with
         restarting_kernels := fun k => if k = "k" then some false else none
        } : AgentState).restarting_kernels "k" = some false) ∧
    ((cleanKernel .ok
        { sampleState with
          restarting_kernels := fun k => if k = "k" then some false else none }
        "k").2 = []) ∧
    sampleState.container_registry "k" = some sampleRecord ∧
    sampleRecord.core_set ≠ [] ∧
    (∀ c ∈ sampleRecord.core_set,
       nodeOfCpu sampleState.container_cpu_map.topology c = sampleRecord.numa_node) ∧
    (∃ r2, (restartKernel sampleConfig { stats := some 7, kill := .ok }
              { image := some sampleImage, volumesOk := true, nvidiaOk := true,
                created := some "c1", startOk := true, ports := some (10, 11, 12, 13) }
              (some .ok) "g" sampleState "k").1.container_registry "k" = some r2 ∧
           r2.core_set = sampleRecord.core_set ∧
           r2.numa_node = sampleRecord.numa_node ∧
           (restartKernel sampleConfig { stats := some 7, kill := .ok }
              { image := some sampleImage, volumesOk := true, nvidiaOk := true,
                created := some "c1", startOk := true, ports := some (10, 11, 12, 13) }
              (some .ok) "g" sampleState "k").2.2 = .ok (r2.stdin_port, r2.stdout_port)) :=
  ⟨rfl,
   (restart_preserves_core_set.1 .ok
     { sampleState with
       restarting_kernels := fun k => if k = "k" then some false else none }
     "k" false rfl).2.2.2.2,
   rfl, by decide, by decide,
   restart_preserves_core_set.2 sampleConfig 7 sampleImage "c1" "g" 10 11 12 13
     .ok sampleState "k" sampleRecord rfl (by decide) (by decide)⟩

/-- Claim C9.  A match spec missing one of the three keys fails with
`TypeError`; one whose operator, target or value kind is invalid fails with
`AssertionError` (the spec's *InvalidMatch* error kind covers both).  With
target `exception` the matched content is the name of the last recorded
exception, and the match evaluates to `false` when none was recorded. -/
theorem match_result_spec (rs : String → String → Bool) (result : ExecOut)
    (m : MatchDict) :
    ((m.op = none ∨ m.target = none ∨ m.value = none) →
       match_result rs result m = .error .typeError) ∧
    (∀ op target v, m = ⟨some op, some target, some v⟩ →
       (¬(op = "contains" ∨ op = "equal" ∨ op = "regex") ∨
        ¬(target = "stdout" ∨ target = "stderr" ∨ target = "exception") ∨
        v = .other) →
       match_result rs result m = .error .assertionError) ∧
    (∀ op v, m = ⟨some op, some "exception", some (.str v)⟩ →
       (op = "contains" ∨ op = "equal" ∨ op = "regex") →
       (result.exceptions = [] → match_result rs result m = .ok false) ∧
       (result.exceptions ≠ [] →
          match_result rs result m = .ok
            (if op = "contains" then
               strContains (result.exceptions.getLastD ("", "")).1 v
             else if op = "equal" then v == (result.exceptions.getLastD ("", "")).1
             else rs v (result.exceptions.getLastD ("", "")).1))) := by
  refine ⟨?_, ?_, ?_⟩
  · intro h
    obtain ⟨o, t, v⟩ := m
    cases o <;> cases t <;> cases v <;> simp_all [match_result]
  · intro op target v hm hbad
    subst hm
    by_cases h1 : op = "contains" ∨ op = "equal" ∨ op = "regex"
    · by_cases h2 : target = "stdout" ∨ target = "stderr" ∨ target = "exception"
      · have hv : v = .other := by tauto
        subst hv
        rcases h1 with h1 | h1 | h1 <;> rcases h2 with h2 | h2 | h2 <;>
          subst h1 <;> subst h2 <;> simp [match_result]
      · have ht1 : target ≠ "stdout" := fun hh => h2 (Or.inl hh)
        have ht2 : target ≠ "stderr" := fun hh => h2 (Or.inr (Or.inl hh))
        have ht3 : target ≠ "exception" := fun hh => h2 (Or.inr (Or.inr hh))
        rcases h1 with h1 | h1 | h1 <;> subst h1 <;>
          simp [match_result, ht1, ht2, ht3]
    · have ho1 : op ≠ "contains" := fun hh => h1 (Or.inl hh)
      have ho2 : op ≠ "equal" := fun hh => h1 (Or.inr (Or.inl hh))
      have ho3 : op ≠ "regex" := fun hh => h1 (Or.inr (Or.inr hh))
      simp [match_result, ho1, ho2, ho3]
  · intro op v hm hvalid
    subst hm
    constructor
    · intro hexc
      rcases hvalid with h | h | h <;> subst h <;> simp [match_result, hexc]
    · intro hne
      have hpos : 0 < result.exceptions.length := List.length_pos.mpr hne
      rcases hvalid with h | h | h <;> subst h <;> simp [match_result, hpos]

/-- Witness for C9: a spec missing its `op` key fails with `TypeError`, one
with operator `frob` fails with `AssertionError`, and an `exception`-target
match is `false` with no recorded exception and matches the last recorded
exception name otherwise. -/
theorem match_result_spec_witness :
    (match_result (fun _ _ => false)
       { stdout := "s", stderr := "e", status := "finished" }
       { op := none, target := some "stdout", value := some (.str "x") } =
         .error .typeError) ∧
    (match_result (fun _ _ => false)
       { stdout := "s", stderr := "e", status := "finished" }
       { op := some "frob", target := some "stdout", value := some (.str "x") } =
         .error .assertionError) ∧
    (match_result (fun _ _ => false)
       { stdout := "s", stderr := "e", status := "finished" }
       { op := some "equal", target := some "exception",
         value := some (.str "NameError") } = .ok false) ∧
    (match_result (fun _ _ => false)
       { stdout := "s", stderr := "e", status := "finished",
         exceptions := [("ZeroDivisionError", "m1"), ("NameError", "m2")] }
       { op := some "equal", target := some "exception",
         value := some (.str "NameError") } = .ok true) :=
  ⟨(match_result_spec (fun _ _ => false)
      { stdout := "s", stderr := "e", status := "finished" }
      { op := none, target := some "stdout", value := some (.str "x") }).1
      (Or.inl rfl),
   (match_result_spec (fun _ _ => false)
      { stdout := "s", stderr := "e", status := "finished" }
      { op := some "frob", target := some "stdout", value := some (.str "x") }).2.1
      "frob" "stdout" (.str "x") rfl (Or.inl (by decide)),
   ((match_result_spec (fun _ _ => false)
      { stdout := "s", stderr := "e", status := "finished" }
      { op := some "equal", target := some "exception",
        value := some (.str "NameError") }).2.2
      "equal" "NameError" rfl (Or.inr (Or.inl rfl))).1 rfl,
   by
     have := ((match_result_spec (fun _ _ => false)
        { stdout := "s", stderr := "e", status := "finished",
          exceptions := [("ZeroDivisionError", "m1"), ("NameError", "m2")] }
        { op := some "equal", target := some "exception",
          value := some (.str "NameError") }).2.2
        "equal" "NameError" rfl (Or.inr (Or.inl rfl))).2 (by decide)
     simpa using this⟩

/-- A service-port entry accepted by the parser: a supported protocol, every
port unprivileged and outside the reserved internal range. -/
def GoodItem (it : ServicePort) : Prop :=
  (it.protocol = "tcp" ∨ it.protocol = "http") ∧
  ∀ p ∈ it.container_ports, 1024 < p ∧ ¬(p = 2000 ∨ p = 2001 ∨ p = 2002 ∨ p = 2003)

theorem checkPorts_ok (ports : List Nat) : ∀ (used used1 : List Nat),
    checkPorts used ports = .ok used1 →
    (∀ p ∈ ports, 1024 < p ∧ ¬(p = 2000 ∨ p = 2001 ∨ p = 2002 ∨ p = 2003) ∧ p ∉ used) ∧
    ports.Nodup ∧
    (∀ q, q ∈ used1 ↔ q ∈ ports ∨ q ∈ used) := by
  induction ports with
  | nil =>
    intro used used1 h
    simp only [checkPorts] at h
    injection h with h
    subst h
    simp
  | cons p ps ih =>
    intro used used1 h
    simp only [checkPorts] at h
    split at h
    · cases h
    · split at h
      · cases h
      · split at h
        · cases h
        · rename_i hcont hle hres
          obtain ⟨ha, hb, hc⟩ := ih (p :: used) used1 h
          have hpused : p ∉ used := by simpa using hcont
          have hple : 1024 < p := by omega
          have hpres : ¬(p = 2000 ∨ p = 2001 ∨ p = 2002 ∨ p = 2003) := by
            simp at hres
            tauto
          refine ⟨?_, ?_, ?_⟩
          · intro q hq
            rcases List.mem_cons.mp hq with hq | hq
            · subst hq; exact ⟨hple, hpres, hpused⟩
            · obtain ⟨hq1, hq2, hq3⟩ := ha q hq
              exact ⟨hq1, hq2, fun hx => hq3 (List.mem_cons_of_mem p hx)⟩
          · refine List.nodup_cons.mpr ⟨?_, hb⟩
            intro hp'
            exact (ha p hp').2.2 (List.mem_cons_self p used)
          · intro q
            have := hc q
            simp only [List.mem_cons] at this ⊢
            tauto

theorem nodup_flatten_reverse (l : List (List Nat)) :
    l.reverse.flatten.Nodup ↔ l.flatten.Nodup := by
  rw [List.nodup_flatten, List.nodup_flatten]
  apply and_congr
  · constructor <;> intro h s hs <;> exact h s (by simpa using hs)
  · rw [List.pairwise_reverse]
    constructor <;> intro h <;> exact h.imp (fun hd => hd.symm)

/-- Invariant of the `parse_service_ports` loop: whatever fuel is given, an
`ok` result extends the accumulated items only with entries whose protocol is
supported and whose ports are valid and globally distinct. -/
theorem parseServicePortsLoop_ok (fuel : Nat) :
    ∀ (cs : List Char) (used : List Nat) (items out : List ServicePort),
      parseServicePortsLoop fuel cs used items = .ok out →
      (∀ it ∈ items, GoodItem it) →
      (items.map ServicePort.container_ports).flatten.Nodup →
      (∀ p ∈ (items.map ServicePort.container_ports).flatten, p ∈ used) →
      (∀ it ∈ out, GoodItem it) ∧
      (out.map ServicePort.container_ports).flatten.Nodup := by
  induction fuel with
  | zero =>
    intro cs used items out h hg hn hu
    simp only [parseServicePortsLoop] at h
    injection h with h
    subst h
    refine ⟨fun it hit => hg it (by simpa using hit), ?_⟩
    rw [List.map_reverse]
    exact (nodup_flatten_reverse _).mpr hn
  | succ fuel ih =>
    intro cs used items out h hg hn hu
    rw [parseServicePortsLoop] at h
    split at h
    · injection h with h
      subst h
      refine ⟨fun it hit => hg it (by simpa using hit), ?_⟩
      rw [List.map_reverse]
      exact (nodup_flatten_reverse _).mpr hn
    · rename_i name proto ports rest hm
      split at h
      · exact ih rest used items out h hg hn hu
      · split at h
        · cases h
        · rename_i hpty hproto
          split at h
          · cases h
          · rename_i used1 hck
            obtain ⟨hgp, hnp, hiff⟩ := checkPorts_ok ports used used1 hck
            have hprot : proto = "tcp" ∨ proto = "http" := by
              simp at hproto
              tauto
            let newIt : ServicePort :=
              { name := name, protocol := proto, container_ports := ports,
                host_ports := ports.map (fun _ => none) }
            have hg1 : ∀ it ∈ newIt :: items, GoodItem it := by
              intro it hit
              rcases List.mem_cons.mp hit with hit | hit
              · subst hit
                exact ⟨hprot, fun p hp => ⟨(hgp p hp).1, (hgp p hp).2.1⟩⟩
              · exact hg it hit
            have hn1 :
                ((newIt :: items).map ServicePort.container_ports).flatten.Nodup := by
              simp only [List.map_cons, List.flatten_cons]
              rw [List.nodup_append]
              refine ⟨hnp, hn, ?_⟩
              intro a ha hb
              exact (hgp a ha).2.2 (hu a hb)
            have hu1 : ∀ p ∈ ((newIt :: items).map
                ServicePort.container_ports).flatten, p ∈ used1 := by
              intro p hp
              simp only [List.map_cons, List.flatten_cons, List.mem_append] at hp
              rcases hp with hp | hp
              · exact (hiff p).mpr (Or.inl hp)
              · exact (hiff p).mpr (Or.inr (hu p hp))
            split at h
            · injection h with h
              subst h
              refine ⟨fun it hit => hg1 it (List.mem_reverse.mp hit), ?_⟩
              rw [List.map_reverse]
              exact (nodup_flatten_reverse _).mpr hn1
            · exact ih rest used1 _ out h hg1 hn1 hu1

/-- Claim C10.  `parse_service_ports` is total with `ValueError` as its only
failure (the `Except` type: every input yields `ok` or `error`), and whenever
it returns entries, every accepted entry has a supported protocol (so `pty`
entries were silently skipped), every declared port is above 1024 and outside
the reserved range 2000-2003, and no port is declared twice across the
accepted entries. -/
theorem parse_service_ports_ok (s : String) (out : List ServicePort)
    (h : parse_service_ports s = .ok out) :
    (∀ it ∈ out, (it.protocol = "tcp" ∨ it.protocol = "http") ∧
       ∀ p ∈ it.container_ports,
         1024 < p ∧ ¬(p = 2000 ∨ p = 2001 ∨ p = 2002 ∨ p = 2003)) ∧
    (out.map ServicePort.container_ports).flatten.Nodup := by
  have key := parseServicePortsLoop_ok (s.data.length + 1) s.data [] [] out h
    (fun it hit => absurd hit (List.not_mem_nil it)) (by simp) (by simp)
  exact ⟨fun it hit => key.1 it hit, key.2⟩

/-- The single entry accepted from the witness input of C10. -/
def apiEntry : ServicePort :=
  { name := "api", protocol := "tcp", container_ports := [8080, 8081],
    host_ports := [none, none] }

/-- Witness for C10: an input whose first entry uses protocol `pty` with a
privileged port parses successfully to the remaining valid entry alone, whose
ports satisfy the claimed bounds and distinctness. -/
theorem parse_service_ports_ok_witness :
    parse_service_ports "web:pty:80,api:tcp:[8080,8081]" = .ok [apiEntry] ∧
    ((∀ it ∈ [apiEntry],
        (it.protocol = "tcp" ∨ it.protocol = "http") ∧
        ∀ p ∈ it.container_ports,
          1024 < p ∧ ¬(p = 2000 ∨ p = 2001 ∨ p = 2002 ∨ p = 2003)) ∧
     ([apiEntry].map ServicePort.container_ports).flatten.Nodup) :=
  ⟨rfl, parse_service_ports_ok "web:pty:80,api:tcp:[8080,8081]" [apiEntry] rfl⟩

end SornaAgent
